import Mathlib

/-!
Verification development for the oqsopenssl wrapper library
(src/oqsopenssl.go): a shallow embedding of its six public operations
and the internal `runCommand` helper, with theorems checking the
design-level claims about command construction, error propagation,
temporary-file cleanup and pipe/process ordering.

The external world (the OpenSSL binary, the filesystem's temp-file
allocator, pipe creation, process start) is modelled by explicit
oracles passed as arguments: a function `Cmd → ExecResult` for
one-shot synchronous invocations, and small records of `Option String`
error outcomes for the fallible local steps.  All definitions are
translated directly from the Go source.
-/

/-- An external command: executable name plus argument list, as built by
`exec.Command(name, args...)` in the Go source. -/
structure Cmd where
  name : String
  args : List String
deriving DecidableEq

/-- Outcome of running one external command to completion:
the captured combined stdout+stderr text, and `some e` when the spawn
failed or the process exited non-zero (`e` is the text of the Go error),
`none` on a zero exit. -/
structure ExecResult where
  output : String
  procErr : Option String
deriving DecidableEq

/-- Embedding of `runCommand` (src/oqsopenssl.go lines 139-146):
runs the command (its outcome is the `r` argument), and on failure
returns the error built by `fmt.Errorf("%s: %s\n%s", errorMessage, err,
output)`; on success prints the output (second component: the log) and
returns no error. -/
def runCommand (r : ExecResult) (errorMessage : String) :
    Except String Unit × List String :=
  match r.procErr with
  | some e => (Except.error (errorMessage ++ ": " ++ e ++ "\n" ++ r.output), [])
  | none => (Except.ok (), [r.output])

/-- The command built by `GeneratePrivateKey` (lines 12-15). -/
def generatePrivateKeyCmd (algorithm outputFile : String) : Cmd :=
  ⟨"openssl", ["genpkey", "-algorithm", algorithm, "-out", outputFile]⟩

/-- Embedding of `GeneratePrivateKey` (lines 12-15): builds the key-generation
command and hands it to `runCommand`.  `exec` is the external-world oracle. -/
def GeneratePrivateKey (exec : Cmd → ExecResult) (algorithm outputFile : String) :
    Except String Unit × List String :=
  runCommand (exec (generatePrivateKeyCmd algorithm outputFile))
    "Failed to generate private key"

/-- The command built by `GenerateRootCertificate` (lines 18-34).  Note the
source passes `subj`, not `spiffeID`, to the `-addext` value (line 29);
`spiffeID` is accepted but unused. -/
def generateRootCertificateCmd (keyFile outputFile subj spiffeID configFile : String)
    (days : Int) : Cmd :=
  ⟨"openssl",
    ["req", "-nodes", "-new", "-x509",
     "-key", keyFile,
     "-out", outputFile,
     "-days", toString days,
     "-subj", subj,
     "-addext", "subjectAltName=URI:" ++ subj,
     "-config", configFile]⟩

/-- Embedding of `GenerateRootCertificate` (lines 18-34). -/
def GenerateRootCertificate (exec : Cmd → ExecResult)
    (keyFile outputFile subj spiffeID configFile : String) (days : Int) :
    Except String Unit × List String :=
  runCommand (exec (generateRootCertificateCmd keyFile outputFile subj spiffeID configFile days))
    "Failed to generate root certificate"

/-- The command built by `GenerateCSR` (lines 37-50).  `spiffeID` is accepted
but unused by the source. -/
def generateCSRCmd (algorithm keyFile csrFile subj spiffeID configFile : String) : Cmd :=
  ⟨"openssl",
    ["req", "-nodes", "-new",
     "-newkey", algorithm,
     "-keyout", keyFile,
     "-out", csrFile,
     "-subj", subj,
     "-config", configFile]⟩

/-- Embedding of `GenerateCSR` (lines 37-50). -/
def GenerateCSR (exec : Cmd → ExecResult)
    (algorithm keyFile csrFile subj spiffeID configFile : String) :
    Except String Unit × List String :=
  runCommand (exec (generateCSRCmd algorithm keyFile csrFile subj spiffeID configFile))
    "Failed to generate CSR"

/-- The command built by `ValidateCertificate` (lines 149-152). -/
def validateCertificateCmd (certFile caCertFile : String) : Cmd :=
  ⟨"openssl", ["verify", "-CAfile", caCertFile, certFile]⟩

/-- Embedding of `ValidateCertificate` (lines 149-152). -/
def ValidateCertificate (exec : Cmd → ExecResult) (certFile caCertFile : String) :
    Except String Unit × List String :=
  runCommand (exec (validateCertificateCmd certFile caCertFile))
    "Failed to validate certificate"

/-! ## Filesystem model for `SignCertificate`

`ioutil.TempFile("", "extfile-*.conf")` creates a fresh uniquely named file
in the temp directory; we model the temp directory as an association list
from file name to contents, plus a counter from which fresh names are drawn
(real `TempFile` guarantees the name is new). -/

/-- The name `TempFile` gives the n-th temporary extension file. -/
def tempName (n : Nat) : String :=
  "/tmp/extfile-" ++ toString n ++ ".conf"

/-- The temp directory: entries (name, contents), plus the fresh-name counter. -/
structure FS where
  next : Nat
  tempFiles : List (String × String)
deriving DecidableEq

/-- `ioutil.TempFile`: allocate a fresh name and create an empty file under it. -/
def createTempFile (fs : FS) : String × FS :=
  (tempName fs.next, ⟨fs.next + 1, (tempName fs.next, "") :: fs.tempFiles⟩)

/-- Append `s` to the contents of the first directory entry named `name`
(file names are unique in a real directory, so "first" is "the"). -/
def writeFileSys : List (String × String) → String → String → List (String × String)
  | [], _, _ => []
  | p :: ps, name, s =>
    if p.1 = name then (p.1, p.2 ++ s) :: ps else p :: writeFileSys ps name s

/-- `extFile.WriteString` on the modelled temp directory. -/
def writeTempFile (fs : FS) (name s : String) : FS :=
  ⟨fs.next, writeFileSys fs.tempFiles name s⟩

/-- `os.Remove`: drop the directory entry named `name`. -/
def removeFile (fs : FS) (name : String) : FS :=
  ⟨fs.next, fs.tempFiles.eraseP (fun p => p.1 == name)⟩

/-- Contents of the file named `name`, if present. -/
def readTempFile (fs : FS) (name : String) : Option String :=
  (fs.tempFiles.find? (fun p => p.1 == name)).map Prod.snd

/-- Outcomes of the three fallible local steps of `SignCertificate`:
temp-file creation, `WriteString`, `Close`.  `some e` is failure with Go
error text `e`. -/
structure SignOracle where
  createErr : Option String
  writeErr : Option String
  closeErr : Option String
deriving DecidableEq

/-- What a `SignCertificate` call produced: the returned error (if any), the
final temp directory, the signing command it spawned together with the
extension file's contents at spawn time (`none` when no external process was
spawned), and the log printed by `runCommand`. -/
structure SignResult where
  result : Except String Unit
  fs : FS
  spawned : Option (Cmd × String)
  log : List String

/-- The signing command built at lines 71-82 of the source. -/
def signCertificateCmd (extFileName csrFile caCertFile caKeyFile outputFile : String)
    (days : Int) : Cmd :=
  ⟨"openssl",
    ["x509", "-req",
     "-extfile", extFileName,
     "-in", csrFile,
     "-CA", caCertFile,
     "-CAkey", caKeyFile,
     "-CAcreateserial",
     "-out", outputFile,
     "-days", toString days]⟩

/-- Embedding of `SignCertificate` (lines 53-86): create a temp extension
file, write `subjectAltName=URI:<spiffeID>\n` to it, close it, run the
signing command, and (via `defer os.Remove`) remove the temp file on every
return path after its creation. -/
def SignCertificate (exec : Cmd → ExecResult) (o : SignOracle) (fs : FS)
    (csrFile caCertFile caKeyFile spiffeID outputFile : String) (days : Int) :
    SignResult :=
  match o.createErr with
  | some e =>
    ⟨Except.error ("failed to create temporary extension file: " ++ e), fs, none, []⟩
  | none =>
    let created := createTempFile fs
    let name := created.1
    let fs1 := created.2
    match o.writeErr with
    | some e =>
      ⟨Except.error ("failed to write to temporary extension file: " ++ e),
       removeFile fs1 name, none, []⟩
    | none =>
      let fs2 := writeTempFile fs1 name ("subjectAltName=URI:" ++ spiffeID ++ "\n")
      match o.closeErr with
      | some e =>
        ⟨Except.error ("failed to close temporary extension file: " ++ e),
         removeFile fs2 name, none, []⟩
      | none =>
        let cmd := signCertificateCmd name csrFile caCertFile caKeyFile outputFile days
        let ran := runCommand (exec cmd) "Failed to sign certificate"
        ⟨ran.1, removeFile fs2 name, some (cmd, (readTempFile fs2 name).getD ""), ran.2⟩

/-! ## Process/pipe model for `StartServer` and `StartClient` -/

/-- The observable local steps of a session start, in the order attempted. -/
inductive SEvent where
  | mkStdoutPipe
  | mkStdinPipe
  | startProc
deriving DecidableEq

/-- Outcomes of the three fallible steps of `StartServer`/`StartClient`:
`cmd.StdoutPipe()`, `cmd.StdinPipe()`, `cmd.Start()`. -/
structure PipeOracle where
  stdoutErr : Option String
  stdinErr : Option String
  startErr : Option String
deriving DecidableEq

/-- What a `StartServer`/`StartClient` call returned: the `*exec.Cmd` handle,
the stdin (write) and stdout (read) pipe handles, the error, the console log,
the sequence of steps attempted, and whether the spawned process is left
running when the call returns. -/
structure StartResult where
  proc : Option Cmd
  stdin : Option Unit
  stdout : Option Unit
  err : Option String
  log : List String
  events : List SEvent
  running : Bool
deriving DecidableEq

/-- The command built by `StartServer` (line 90). -/
def startServerCmd (certFile keyFile caFile : String) : Cmd :=
  ⟨"openssl",
    ["s_server", "-accept", "4433", "-state",
     "-cert", certFile, "-key", keyFile,
     "-tls1_3", "-Verify", "1", "-CAfile", caFile, "-www"]⟩

/-- The command built by `StartClient` (line 117). -/
def startClientCmd (address certFile keyFile caCertFile : String) : Cmd :=
  ⟨"openssl",
    ["s_client", "-connect", address, "-state",
     "-cert", certFile, "-key", keyFile,
     "-tls1_3", "-CAfile", caCertFile]⟩

/-- Shared body of `StartServer` (lines 89-113) and `StartClient`
(lines 116-136): create the stdout pipe, then the stdin pipe, then start the
process; on each failure print a message and return the bare error with all
three handles nil. -/
def startSession (o : PipeOracle) (cmd : Cmd) (startMsg : String) : StartResult :=
  match o.stdoutErr with
  | some e =>
    ⟨none, none, none, some e, ["Error creating stdout pipe: " ++ e],
     [SEvent.mkStdoutPipe], false⟩
  | none =>
    match o.stdinErr with
    | some e =>
      ⟨none, none, none, some e, ["Error creating stdin pipe: " ++ e],
       [SEvent.mkStdoutPipe, SEvent.mkStdinPipe], false⟩
    | none =>
      match o.startErr with
      | some e =>
        ⟨none, none, none, some e, [startMsg ++ e],
         [SEvent.mkStdoutPipe, SEvent.mkStdinPipe, SEvent.startProc], false⟩
      | none =>
        ⟨some cmd, some (), some (), none, [],
         [SEvent.mkStdoutPipe, SEvent.mkStdinPipe, SEvent.startProc], true⟩

/-- Embedding of `StartServer` (lines 89-113). -/
def StartServer (o : PipeOracle) (certFile keyFile caFile : String) : StartResult :=
  startSession o (startServerCmd certFile keyFile caFile)
    "Error starting OpenSSL s_server: "

/-- Embedding of `StartClient` (lines 116-136). -/
def StartClient (o : PipeOracle) (address certFile keyFile caCertFile : String) :
    StartResult :=
  startSession o (startClientCmd address certFile keyFile caCertFile)
    "Error starting OpenSSL s_client: "

/-- `t` occurs as a contiguous substring of `s`. -/
def strContains (s t : String) : Prop :=
  ∃ pre post : String, s = pre ++ t ++ post

/-! ## Claim theorems -/

/-- Claim C1, counterexample: with `subj = "/CN=root"` and
`spiffeID = "spiffe://example/root"`, no argument of the constructed root
command equals `"subjectAltName=URI:" ++ spiffeID`: the `-addext` value is
built from `subj`, not from `spiffeID`. -/
theorem generateRootCertificate_addext_not_spiffeID :
    ("subjectAltName=URI:" ++ "spiffe://example/root") ∉
      (generateRootCertificateCmd "root.key" "root.crt" "/CN=root"
        "spiffe://example/root" "ossl.cnf" 365).args := by
  decide

/-- Claim C1 (amended): in the root-certificate command, the subject string
`subj` is passed to `-subj`, and the `subjectAltName` extension value is
`"subjectAltName=URI:"` followed by `subj` (not by `spiffeID`, which is
unused). -/
theorem generateRootCertificate_embeds_subj_twice
    (keyFile outputFile subj spiffeID configFile : String) (days : Int) :
    (generateRootCertificateCmd keyFile outputFile subj spiffeID configFile days).args.get? 10
        = some "-subj" ∧
    (generateRootCertificateCmd keyFile outputFile subj spiffeID configFile days).args.get? 11
        = some subj ∧
    (generateRootCertificateCmd keyFile outputFile subj spiffeID configFile days).args.get? 12
        = some "-addext" ∧
    (generateRootCertificateCmd keyFile outputFile subj spiffeID configFile days).args.get? 13
        = some ("subjectAltName=URI:" ++ subj) :=
  ⟨rfl, rfl, rfl, rfl⟩

/-- Claim C2: whatever the outcomes of the local steps and of the signing
invocation, the temp directory after `SignCertificate` returns is exactly
the temp directory before the call: no temporary extension file is left
behind. -/
theorem signCertificate_leaves_no_temp_file (exec : Cmd → ExecResult)
    (o : SignOracle) (fs : FS)
    (csrFile caCertFile caKeyFile spiffeID outputFile : String) (days : Int) :
    (SignCertificate exec o fs csrFile caCertFile caKeyFile spiffeID outputFile
        days).fs.tempFiles = fs.tempFiles := by
  rcases o with ⟨ce, we, cle⟩
  rcases ce with _ | e₁ <;> rcases we with _ | e₂ <;> rcases cle with _ | e₃ <;>
    simp [SignCertificate, createTempFile, writeTempFile, writeFileSys, removeFile]

/-- Claim C9: `GeneratePrivateKey` passes the algorithm string through
unchanged as the value of `-algorithm`, and the call succeeds exactly when
the external process does. -/
theorem generatePrivateKey_algorithm_passthrough (exec : Cmd → ExecResult)
    (algorithm outputFile : String) :
    (generatePrivateKeyCmd algorithm outputFile).args.get? 1 = some "-algorithm" ∧
    (generatePrivateKeyCmd algorithm outputFile).args.get? 2 = some algorithm ∧
    ((GeneratePrivateKey exec algorithm outputFile).1 = Except.ok () ↔
      (exec (generatePrivateKeyCmd algorithm outputFile)).procErr = none) := by
  refine ⟨rfl, rfl, ?_⟩
  unfold GeneratePrivateKey runCommand
  rcases h : (exec (generatePrivateKeyCmd algorithm outputFile)).procErr with _ | e <;>
    simp [h]

/-- Claim C10: neither `GenerateRootCertificate` nor `GenerateCSR` depends on
its `spiffeID` argument: two calls differing only in `spiffeID` build the
same command and return the same result. -/
theorem spiffeID_does_not_influence_root_or_csr (exec : Cmd → ExecResult)
    (keyFile outputFile subj spiffeID spiffeID2 configFile : String) (days : Int)
    (algorithm keyFile2 csrFile : String) :
    generateRootCertificateCmd keyFile outputFile subj spiffeID configFile days
        = generateRootCertificateCmd keyFile outputFile subj spiffeID2 configFile days ∧
    GenerateRootCertificate exec keyFile outputFile subj spiffeID configFile days
        = GenerateRootCertificate exec keyFile outputFile subj spiffeID2 configFile days ∧
    generateCSRCmd algorithm keyFile2 csrFile subj spiffeID configFile
        = generateCSRCmd algorithm keyFile2 csrFile subj spiffeID2 configFile ∧
    GenerateCSR exec algorithm keyFile2 csrFile subj spiffeID configFile
        = GenerateCSR exec algorithm keyFile2 csrFile subj spiffeID2 configFile :=
  ⟨rfl, rfl, rfl, rfl⟩

/-- Claim C3, counterexample: when stdout-pipe creation fails with underlying
error `"boom"`, `StartServer` returns exactly `"boom"` — the bare underlying
error, with no operation description wrapped into it (the description is only
printed to the console log). -/
theorem startServer_returns_bare_pipe_error :
    (StartServer ⟨some "boom", none, none⟩ "cert.pem" "key.pem" "ca.pem").err
      = some "boom" ∧
    (StartServer ⟨some "boom", none, none⟩ "cert.pem" "key.pem" "ca.pem").log
      = ["Error creating stdout pipe: boom"] :=
  ⟨rfl, rfl⟩

/-- Claim C3 (amended): in `StartServer` and `StartClient`, every failure of
stdout-pipe creation, stdin-pipe creation, or process start is logged to the
console together with a human-readable operation description, but the error
value returned to the caller is the bare underlying error, unwrapped. -/
theorem start_errors_logged_but_returned_bare (o : PipeOracle)
    (address certFile keyFile caFile : String) :
    (∀ e, o.stdoutErr = some e →
      (StartServer o certFile keyFile caFile).err = some e ∧
      (StartServer o certFile keyFile caFile).log = ["Error creating stdout pipe: " ++ e] ∧
      (StartClient o address certFile keyFile caFile).err = some e ∧
      (StartClient o address certFile keyFile caFile).log = ["Error creating stdout pipe: " ++ e]) ∧
    (∀ e, o.stdoutErr = none → o.stdinErr = some e →
      (StartServer o certFile keyFile caFile).err = some e ∧
      (StartServer o certFile keyFile caFile).log = ["Error creating stdin pipe: " ++ e] ∧
      (StartClient o address certFile keyFile caFile).err = some e ∧
      (StartClient o address certFile keyFile caFile).log = ["Error creating stdin pipe: " ++ e]) ∧
    (∀ e, o.stdoutErr = none → o.stdinErr = none → o.startErr = some e →
      (StartServer o certFile keyFile caFile).err = some e ∧
      (StartServer o certFile keyFile caFile).log = ["Error starting OpenSSL s_server: " ++ e] ∧
      (StartClient o address certFile keyFile caFile).err = some e ∧
      (StartClient o address certFile keyFile caFile).log = ["Error starting OpenSSL s_client: " ++ e]) := by
  rcases o with ⟨soe, sie, ste⟩
  refine ⟨?_, ?_, ?_⟩ <;> intro e <;>
    simp +contextual [StartServer, StartClient, startSession]

/-- Claim C3, witness: concrete instantiation of the amended theorem at a
stdin-pipe failure. -/
theorem start_errors_logged_but_returned_bare_witness :
    (StartServer ⟨none, some "pipe gone", none⟩ "c.pem" "k.pem" "ca.pem").err
        = some "pipe gone" ∧
    (StartClient ⟨none, some "pipe gone", none⟩ "h:4433" "c.pem" "k.pem" "ca.pem").log
        = ["Error creating stdin pipe: " ++ "pipe gone"] := by
  have h := (start_errors_logged_but_returned_bare ⟨none, some "pipe gone", none⟩
    "h:4433" "c.pem" "k.pem" "ca.pem").2.1 "pipe gone" rfl rfl
  exact ⟨h.1, h.2.2.2⟩

/-- Claim C4: `runCommand` (used by `GeneratePrivateKey`,
`GenerateRootCertificate`, `GenerateCSR`, `SignCertificate`,
`ValidateCertificate`) returns, on process failure, an error containing the
operation message, the underlying process error text and the captured
combined output; on success it returns no error and logs the combined
output. -/
theorem runCommand_failure_diagnostics_and_success_log (r : ExecResult) (msg : String) :
    (∀ e, r.procErr = some e →
      ∃ s, (runCommand r msg).1 = Except.error s ∧
        strContains s msg ∧ strContains s e ∧ strContains s r.output) ∧
    (r.procErr = none →
      (runCommand r msg).1 = Except.ok () ∧ (runCommand r msg).2 = [r.output]) ∧
    (∀ exec algorithm outputFile, GeneratePrivateKey exec algorithm outputFile
      = runCommand (exec (generatePrivateKeyCmd algorithm outputFile))
          "Failed to generate private key") ∧
    (∀ exec certFile caCertFile, ValidateCertificate exec certFile caCertFile
      = runCommand (exec (validateCertificateCmd certFile caCertFile))
          "Failed to validate certificate") := by
  refine ⟨?_, ?_, fun _ _ _ => rfl, fun _ _ _ => rfl⟩
  · intro e he
    refine ⟨msg ++ ": " ++ e ++ "\n" ++ r.output, by simp [runCommand, he], ?_, ?_, ?_⟩
    · exact ⟨"", ": " ++ e ++ "\n" ++ r.output, by simp [String.append_assoc]⟩
    · exact ⟨msg ++ ": ", "\n" ++ r.output, by simp [String.append_assoc]⟩
    · exact ⟨msg ++ ": " ++ e ++ "\n", "", by simp [String.append_assoc]⟩
  · intro hn
    simp [runCommand, hn]

/-- Claim C4, witness: concrete instantiation at a failing run with output
`"bad decrypt"` and process error `"exit status 1"`. -/
theorem runCommand_failure_diagnostics_witness :
    ∃ s, (runCommand ⟨"bad decrypt", some "exit status 1"⟩ "Failed to sign certificate").1
        = Except.error s ∧
      strContains s "Failed to sign certificate" ∧
      strContains s "exit status 1" ∧ strContains s "bad decrypt" :=
  (runCommand_failure_diagnostics_and_success_log
    ⟨"bad decrypt", some "exit status 1"⟩ "Failed to sign certificate").1
    "exit status 1" rfl

/-- Claim C5: if temp-file creation, the write, or the close fails,
`SignCertificate` returns an error naming that step and spawns no external
process; if those steps succeed and the signing invocation itself fails, an
error is returned as well. -/
theorem signCertificate_error_paths (exec : Cmd → ExecResult) (o : SignOracle)
    (fs : FS) (csrFile caCertFile caKeyFile spiffeID outputFile : String) (days : Int) :
    (∀ e, o.createErr = some e →
      (SignCertificate exec o fs csrFile caCertFile caKeyFile spiffeID outputFile days).result
          = Except.error ("failed to create temporary extension file: " ++ e) ∧
      (SignCertificate exec o fs csrFile caCertFile caKeyFile spiffeID outputFile days).spawned
          = none) ∧
    (∀ e, o.createErr = none → o.writeErr = some e →
      (SignCertificate exec o fs csrFile caCertFile caKeyFile spiffeID outputFile days).result
          = Except.error ("failed to write to temporary extension file: " ++ e) ∧
      (SignCertificate exec o fs csrFile caCertFile caKeyFile spiffeID outputFile days).spawned
          = none) ∧
    (∀ e, o.createErr = none → o.writeErr = none → o.closeErr = some e →
      (SignCertificate exec o fs csrFile caCertFile caKeyFile spiffeID outputFile days).result
          = Except.error ("failed to close temporary extension file: " ++ e) ∧
      (SignCertificate exec o fs csrFile caCertFile caKeyFile spiffeID outputFile days).spawned
          = none) ∧
    (∀ e, o.createErr = none → o.writeErr = none → o.closeErr = none →
      (exec (signCertificateCmd (tempName fs.next) csrFile caCertFile caKeyFile
        outputFile days)).procErr = some e →
      ∃ s, (SignCertificate exec o fs csrFile caCertFile caKeyFile spiffeID outputFile
        days).result = Except.error s) := by
  rcases o with ⟨ce, we, cle⟩
  refine ⟨?_, ?_, ?_, ?_⟩ <;> intro e <;>
    simp +contextual [SignCertificate, createTempFile, runCommand]

/-- Claim C5, witness: concrete instantiations of the create-failure and
signing-failure branches. -/
theorem signCertificate_error_paths_witness :
    ((SignCertificate (fun _ => ⟨"", none⟩) ⟨some "disk full", none, none⟩ ⟨0, []⟩
        "a.csr" "ca.crt" "ca.key" "spiffe://x" "out.crt" 365).result
      = Except.error ("failed to create temporary extension file: " ++ "disk full")) ∧
    ∃ s, (SignCertificate (fun _ => ⟨"no such file", some "exit status 1"⟩)
        ⟨none, none, none⟩ ⟨0, []⟩
        "a.csr" "ca.crt" "ca.key" "spiffe://x" "out.crt" 365).result
      = Except.error s := by
  constructor
  · exact ((signCertificate_error_paths (fun _ => ⟨"", none⟩)
      ⟨some "disk full", none, none⟩ ⟨0, []⟩
      "a.csr" "ca.crt" "ca.key" "spiffe://x" "out.crt" 365).1 "disk full" rfl).1
  · exact (signCertificate_error_paths (fun _ => ⟨"no such file", some "exit status 1"⟩)
      ⟨none, none, none⟩ ⟨0, []⟩
      "a.csr" "ca.crt" "ca.key" "spiffe://x" "out.crt" 365).2.2.2
      "exit status 1" rfl rfl rfl rfl

/-- Claim C6: in both `StartServer` and `StartClient`, the steps attempted
are always an order-respecting prefix of stdout pipe, stdin pipe, process
start; the stdin pipe is attempted only after the stdout pipe succeeds and
the start only after both pipes succeed; an error is returned exactly when
some step fails, and then all three handles are nil; on success all three
handles are non-nil, the error is nil and the process is left running. -/
theorem start_pipe_order_and_return_shape (o : PipeOracle)
    (address certFile keyFile caFile : String) :
    ((StartServer o certFile keyFile caFile).events
        <+: [SEvent.mkStdoutPipe, SEvent.mkStdinPipe, SEvent.startProc] ∧
     (StartClient o address certFile keyFile caFile).events
        <+: [SEvent.mkStdoutPipe, SEvent.mkStdinPipe, SEvent.startProc]) ∧
    ((SEvent.mkStdinPipe ∈ (StartServer o certFile keyFile caFile).events →
        o.stdoutErr = none) ∧
     (SEvent.startProc ∈ (StartServer o certFile keyFile caFile).events →
        o.stdoutErr = none ∧ o.stdinErr = none) ∧
     (SEvent.mkStdinPipe ∈ (StartClient o address certFile keyFile caFile).events →
        o.stdoutErr = none) ∧
     (SEvent.startProc ∈ (StartClient o address certFile keyFile caFile).events →
        o.stdoutErr = none ∧ o.stdinErr = none)) ∧
    ((StartServer o certFile keyFile caFile).err.isSome ↔
        (o.stdoutErr.isSome ∨ o.stdinErr.isSome ∨ o.startErr.isSome)) ∧
    ((StartClient o address certFile keyFile caFile).err.isSome ↔
        (o.stdoutErr.isSome ∨ o.stdinErr.isSome ∨ o.startErr.isSome)) ∧
    ((StartServer o certFile keyFile caFile).err.isSome →
      (StartServer o certFile keyFile caFile).proc = none ∧
      (StartServer o certFile keyFile caFile).stdin = none ∧
      (StartServer o certFile keyFile caFile).stdout = none ∧
      (StartServer o certFile keyFile caFile).running = false) ∧
    ((StartClient o address certFile keyFile caFile).err.isSome →
      (StartClient o address certFile keyFile caFile).proc = none ∧
      (StartClient o address certFile keyFile caFile).stdin = none ∧
      (StartClient o address certFile keyFile caFile).stdout = none ∧
      (StartClient o address certFile keyFile caFile).running = false) ∧
    ((StartServer o certFile keyFile caFile).err = none →
      (StartServer o certFile keyFile caFile).proc
          = some (startServerCmd certFile keyFile caFile) ∧
      (StartServer o certFile keyFile caFile).stdin = some () ∧
      (StartServer o certFile keyFile caFile).stdout = some () ∧
      (StartServer o certFile keyFile caFile).running = true) ∧
    ((StartClient o address certFile keyFile caFile).err = none →
      (StartClient o address certFile keyFile caFile).proc
          = some (startClientCmd address certFile keyFile caFile) ∧
      (StartClient o address certFile keyFile caFile).stdin = some () ∧
      (StartClient o address certFile keyFile caFile).stdout = some () ∧
      (StartClient o address certFile keyFile caFile).running = true) := by
  rcases o with ⟨soe, sie, ste⟩
  rcases soe with _ | e₁ <;> rcases sie with _ | e₂ <;> rcases ste with _ | e₃ <;>
    simp [StartServer, StartClient, startSession, List.prefix_iff_eq_append]

/-- Claim C6, witness: concrete instantiation at a stdout-pipe failure: the
server call returns (nil, nil, nil, error) with the process never started,
and the client call at the same oracle also returns a non-nil error. -/
theorem start_pipe_order_witness :
    ((StartServer ⟨some "oops", some "other", none⟩ "c.pem" "k.pem" "ca.pem").proc
        = none ∧
     (StartServer ⟨some "oops", some "other", none⟩ "c.pem" "k.pem" "ca.pem").stdin
        = none ∧
     (StartServer ⟨some "oops", some "other", none⟩ "c.pem" "k.pem" "ca.pem").stdout
        = none ∧
     (StartServer ⟨some "oops", some "other", none⟩ "c.pem" "k.pem" "ca.pem").running
        = false) ∧
    (StartClient ⟨some "oops", some "other", none⟩ "h:4433" "c.pem" "k.pem"
        "ca.pem").err.isSome = true :=
  ⟨(start_pipe_order_and_return_shape ⟨some "oops", some "other", none⟩
      "h:4433" "c.pem" "k.pem" "ca.pem").2.2.2.2.1 rfl,
   (start_pipe_order_and_return_shape ⟨some "oops", some "other", none⟩
      "h:4433" "c.pem" "k.pem" "ca.pem").2.2.2.1.mpr (Or.inl rfl)⟩

/-- Claim C7: when all three local steps succeed, `SignCertificate` runs the
signing command with the extension file containing exactly the single line
`subjectAltName=URI:<spiffeID>` plus newline, and the command carries the
extension file path, the CSR, the CA certificate and key, the
serial-auto-creation flag, the output path and the validity in days. -/
theorem signCertificate_signing_command_and_extfile (exec : Cmd → ExecResult)
    (o : SignOracle) (fs : FS)
    (csrFile caCertFile caKeyFile spiffeID outputFile : String) (days : Int)
    (h1 : o.createErr = none) (h2 : o.writeErr = none) (h3 : o.closeErr = none) :
    (SignCertificate exec o fs csrFile caCertFile caKeyFile spiffeID outputFile
        days).spawned
      = some (signCertificateCmd (tempName fs.next) csrFile caCertFile caKeyFile
          outputFile days,
          "subjectAltName=URI:" ++ spiffeID ++ "\n") ∧
    (signCertificateCmd (tempName fs.next) csrFile caCertFile caKeyFile
        outputFile days).args
      = ["x509", "-req", "-extfile", tempName fs.next, "-in", csrFile,
         "-CA", caCertFile, "-CAkey", caKeyFile, "-CAcreateserial",
         "-out", outputFile, "-days", toString days] := by
  rcases o with ⟨ce, we, cle⟩
  cases h1; cases h2; cases h3
  simp [SignCertificate, createTempFile, writeTempFile, writeFileSys,
    readTempFile, signCertificateCmd]

/-- Claim C7, witness: concrete instantiation with all local steps
succeeding. -/
theorem signCertificate_signing_command_witness :
    (SignCertificate (fun _ => ⟨"", none⟩) ⟨none, none, none⟩ ⟨0, []⟩
        "leaf.csr" "root.crt" "root.key" "spiffe://example/leaf" "leaf.crt"
        365).spawned
      = some (signCertificateCmd (tempName 0) "leaf.csr" "root.crt" "root.key"
          "leaf.crt" 365,
          "subjectAltName=URI:" ++ "spiffe://example/leaf" ++ "\n") :=
  (signCertificate_signing_command_and_extfile (fun _ => ⟨"", none⟩)
    ⟨none, none, none⟩ ⟨0, []⟩ "leaf.csr" "root.crt" "root.key"
    "spiffe://example/leaf" "leaf.crt" 365 rfl rfl rfl).1

/-- Claim C8: the server command is bound to listening port 4433, requires
and verifies a peer certificate (`-Verify 1`), and pins the protocol to TLS
1.3; a fully successful `StartServer` returns exactly this command. -/
theorem startServer_port_mutual_auth_tls13 (certFile keyFile caFile : String) :
    (startServerCmd certFile keyFile caFile).args.get? 1 = some "-accept" ∧
    (startServerCmd certFile keyFile caFile).args.get? 2 = some "4433" ∧
    (startServerCmd certFile keyFile caFile).args.get? 8 = some "-tls1_3" ∧
    (startServerCmd certFile keyFile caFile).args.get? 9 = some "-Verify" ∧
    (startServerCmd certFile keyFile caFile).args.get? 10 = some "1" ∧
    (StartServer ⟨none, none, none⟩ certFile keyFile caFile).proc
        = some (startServerCmd certFile keyFile caFile) :=
  ⟨rfl, rfl, rfl, rfl, rfl, rfl⟩
